import Mathlib

/-!
# Verification of `src/core/light_source_controller.py`

A shallow embedding of `QuantumLightSourceController` and the claims about it.

Modelling decisions, recorded once here:

* Python floats are embedded as `ℚ`.  The controller only ever compares powers
  and assigns them (no float arithmetic feeds back into the state except the
  exact products of the warmup ramp, which are discarded), so the embedding is
  exact.
* The three subsystem collaborators (`QuantumJetSubsystem`,
  `ShenquOptimizerSubsystem`, `PerformanceMonitor`) are stubs in the source
  ("這裡集成實際的量子噴流控制" - placeholders for real hardware).  The claims
  quantify over collaborator success and failure, so each collaborator call
  is embedded as an oracle field of a `Collaborators` record: `none` models
  the call raising an exception, `some v` models it returning `v`.  The
  record `stubCollaborators` is the behaviour of the concrete stub classes
  in the source (every call succeeds, every `calibrate` returns `True`).
* A Python method that can let an exception escape to its caller returns
  `PyResult α`; `PyResult.raised` is an uncaught exception at the controller
  boundary.  Methods that catch everything (`power_on`, `start_emission`,
  `set_power`, `calibrate`) return plain `Bool` as in the source.
* The controller keeps a publication log `events`: `_update_state` publishes a
  `state_change` event and `set_power` publishes a `power_update` event by
  calling `_trigger_callbacks`.  Listener exceptions are swallowed inside
  `_trigger_callbacks` and never influence the controller state, so the log
  records exactly what was published; the listener side is modelled
  separately (`trigger_callbacks_list`, `register_callback`).
* `time.sleep` is a pure delay with no effect on controller state and is
  dropped.  The source `start_emission` spawns no thread, timer or task of
  any kind, so the embedded controller state has no pending-task component:
  between two public operations nothing happens (`run c [] = c`).
-/

/-- `LightSourceState` enum of the source. -/
inductive LightSourceState where
  | off
  | standby
  | calibrating
  | ready
  | emitting
  | error
deriving DecidableEq, Repr

/-- `LightSourceConfig` dataclass; defaults as in the source, written as
exact rationals: wavelength 5.8e-9 = 29/5000000000, max_power
5.0e-9 = 1/200000000, stability_target 0.01 = 1/100, warmup_time 30.0,
calibration_interval 3600.  (`mkRat` rather than decimal notation so that
concrete runs reduce inside `decide`.) -/
structure LightSourceConfig where
  wavelength : ℚ := mkRat 29 5000000000
  max_power : ℚ := mkRat 1 200000000
  stability_target : ℚ := mkRat 1 100
  warmup_time : ℚ := 30
  calibration_interval : ℤ := 3600
deriving DecidableEq, Repr

/-- `EmissionParameters` dataclass; defaults 0.0, 0.0, 1.0 as in the
source. -/
structure EmissionParameters where
  power : ℚ
  duration : ℚ := 0
  frequency : ℚ := 0
  duty_cycle : ℚ := 1
deriving DecidableEq, Repr

/-- An event published through `_trigger_callbacks`.  The source publishes
`state_change` events (from `_update_state`) and `power_update` events
(from `set_power`); it never publishes on the `error` channel. -/
inductive ControllerEvent where
  | state_change (old_state new_state : LightSourceState)
  | power_update (power : ℚ)
deriving DecidableEq, Repr

/-- The mutable state of a `QuantumLightSourceController`, plus the log of
events it has published (oldest first). -/
structure Controller where
  config : LightSourceConfig
  state : LightSourceState
  current_power : ℚ
  events : List ControllerEvent
deriving DecidableEq, Repr

/-- `__init__`: state OFF, current_power 0.0, nothing published yet. -/
def initController (config : LightSourceConfig) : Controller :=
  { config := config
    state := .off
    current_power := 0
    events := [] }

/-- One oracle per collaborator call site.  `none` = the call raises,
`some v` = the call returns `v`.  The defaults are the concrete stub
subsystems of the source: nothing raises, every `calibrate` returns `True`,
`adjust_power` returns `True`. -/
structure Collaborators where
  jet_init : Option Unit := some ()
  jet_shutdown : Option Unit := some ()
  jet_calibrate : Option Bool := some true
  jet_configure_emission : Option Unit := some ()
  optimizer_warm_up : Option Unit := some ()
  optimizer_shutdown : Option Unit := some ()
  optimizer_calibrate : Option Bool := some true
  optimizer_start_rt : Option Unit := some ()
  optimizer_stop_rt : Option Unit := some ()
  optimizer_adjust_power : ℚ → Option Bool := fun _ => some true
  optimizer_prepare_for_power : ℚ → Option Unit := fun _ => some ()
  optimizer_configure_optimization : Option Unit := some ()
  monitor_calibrate_sensors : Option Bool := some true
  monitor_start_pm : Option Unit := some ()
  monitor_stop_pm : Option Unit := some ()
  monitor_configure_monitoring : Option Unit := some ()

/-- The collaborator behaviour actually constructed by
`_initialize_subsystems` in the source (the simplified stub classes). -/
def stubCollaborators : Collaborators := {}

/-- Result of a Python method at the controller boundary:
`raised` = an exception escaped to the caller. -/
inductive PyResult (α : Type) where
  | ok (value : α)
  | raised
deriving DecidableEq, Repr

/-- `_update_state`: set the new state and publish a `state_change` event
carrying the old and new state. -/
def update_state (c : Controller) (new_state : LightSourceState) : Controller :=
  { c with
    state := new_state
    events := c.events ++ [.state_change c.state new_state] }

/-- `_execute_warmup_sequence`: four `prepare_for_power` calls at 10%, 30%,
60% and 80% of `max_power`, each followed by a `time.sleep` (no state
effect).  Any of the calls may raise. -/
def execute_warmup_sequence (co : Collaborators) (c : Controller) : Option Unit := do
  let _ ← co.optimizer_prepare_for_power (c.config.max_power * 0.1)
  let _ ← co.optimizer_prepare_for_power (c.config.max_power * 0.3)
  let _ ← co.optimizer_prepare_for_power (c.config.max_power * 0.6)
  let _ ← co.optimizer_prepare_for_power (c.config.max_power * 0.8)
  pure ()

/-- `power_on`: rejected unless state is OFF; otherwise STANDBY, jet
`initialize`, optimizer `warm_up`, warmup sequence, READY.  The enclosing
`try`/`except Exception` turns any collaborator exception into a transition
to ERROR and a `False` return; nothing escapes to the caller. -/
def power_on (co : Collaborators) (c : Controller) : Bool × Controller :=
  if c.state ≠ .off then (false, c)
  else
    let c := update_state c .standby
    match co.jet_init with
    | none => (false, update_state c .error)
    | some _ =>
      match co.optimizer_warm_up with
      | none => (false, update_state c .error)
      | some _ =>
        match execute_warmup_sequence co c with
        | none => (false, update_state c .error)
        | some _ => (true, update_state c .ready)

/-- `stop_emission`: a no-op unless state is EMITTING; otherwise stop
real-time optimization, stop power monitoring, transition to READY, zero
`current_power`.  There is no `try` here, so a collaborator exception
escapes with the state as it was at the point of the raise. -/
def stop_emission (co : Collaborators) (c : Controller) : PyResult Unit × Controller :=
  if c.state = .emitting then
    match co.optimizer_stop_rt with
    | none => (.raised, c)
    | some _ =>
      match co.monitor_stop_pm with
      | none => (.raised, c)
      | some _ =>
        let c := update_state c .ready
        (.ok (), { c with current_power := 0 })
  else (.ok (), c)

/-- `power_off`: `stop_emission`, optimizer `shutdown`, jet `shutdown`,
transition to OFF, zero `current_power`.  There is no `try` here either, so
any collaborator exception escapes to the caller. -/
def power_off (co : Collaborators) (c : Controller) : PyResult Unit × Controller :=
  match stop_emission co c with
  | (.raised, c) => (.raised, c)
  | (.ok _, c) =>
    match co.optimizer_shutdown with
    | none => (.raised, c)
    | some _ =>
      match co.jet_shutdown with
      | none => (.raised, c)
      | some _ =>
        let c := update_state c .off
        (.ok (), { c with current_power := 0 })

/-- `_validate_emission_parameters`: raises `ValueError` (modelled `none`)
exactly on the source's four checks, in order.  Note the power check rejects
`power <= 0`, unlike `set_power` which rejects only `power < 0`. -/
def validate_emission_parameters (c : Controller) (params : EmissionParameters) :
    Option Unit :=
  if params.power ≤ 0 ∨ params.power > c.config.max_power then none
  else if params.duration < 0 then none
  else if params.frequency < 0 then none
  else if params.duty_cycle ≤ 0 ∨ params.duty_cycle > 1 then none
  else some ()

/-- `_apply_emission_parameters`: configure jet, optimizer, monitor in that
order; any call may raise. -/
def apply_emission_parameters (co : Collaborators) : Option Unit := do
  let _ ← co.jet_configure_emission
  let _ ← co.optimizer_configure_optimization
  let _ ← co.monitor_configure_monitoring
  pure ()

/-- `start_emission`: rejected unless state is READY.  Inside the `try`:
validate, apply parameters, start real-time optimization, transition to
EMITTING, set `current_power`, start power monitoring, return `True`.  The
`except Exception` handler only returns `False`: an exception raised by
`monitor.start_power_monitoring` leaves the already-committed EMITTING state
and `current_power` in place. -/
def start_emission (co : Collaborators) (params : EmissionParameters)
    (c : Controller) : Bool × Controller :=
  if c.state ≠ .ready then (false, c)
  else
    match validate_emission_parameters c params with
    | none => (false, c)
    | some _ =>
      match apply_emission_parameters co with
      | none => (false, c)
      | some _ =>
        match co.optimizer_start_rt with
        | none => (false, c)
        | some _ =>
          let c := update_state c .emitting
          let c := { c with current_power := params.power }
          match co.monitor_start_pm with
          | none => (false, c)
          | some _ => (true, c)

/-- `set_power`: rejected if `power < 0 or power > max_power` (note: `0` is
accepted), rejected unless state is EMITTING; otherwise delegate to
`optimizer.adjust_power`; on `True` set `current_power` and publish a
`power_update` event; on `False` or an exception return `False` with the
controller unchanged. -/
def set_power (co : Collaborators) (power : ℚ) (c : Controller) : Bool × Controller :=
  if power < 0 ∨ power > c.config.max_power then (false, c)
  else if c.state ≠ .emitting then (false, c)
  else
    match co.optimizer_adjust_power power with
    | none => (false, c)
    | some false => (false, c)
    | some true =>
      let c := { c with current_power := power }
      (true, { c with events := c.events ++ [.power_update power] })

/-- `calibrate`: unconditionally transition to CALIBRATING (no precondition
on the previous state, and `current_power` is not touched), then run jet,
optimizer and sensor calibration in order; READY and `True` only when all
three return `True`, otherwise (any `False` or any exception) ERROR and
`False`. -/
def calibrate (co : Collaborators) (c : Controller) : Bool × Controller :=
  let c := update_state c .calibrating
  match co.jet_calibrate with
  | none => (false, update_state c .error)
  | some jet_ok =>
    match co.optimizer_calibrate with
    | none => (false, update_state c .error)
    | some opt_ok =>
      match co.monitor_calibrate_sensors with
      | none => (false, update_state c .error)
      | some sensors_ok =>
        if jet_ok && opt_ok && sensors_ok then (true, update_state c .ready)
        else (false, update_state c .error)

/-- A public operation together with the behaviour of every collaborator
call made during it. -/
inductive Op where
  | op_power_on (co : Collaborators)
  | op_power_off (co : Collaborators)
  | op_calibrate (co : Collaborators)
  | op_start_emission (co : Collaborators) (params : EmissionParameters)
  | op_stop_emission (co : Collaborators)
  | op_set_power (co : Collaborators) (power : ℚ)

/-- Apply one public operation, discarding its return value. -/
def apply_op (c : Controller) : Op → Controller
  | .op_power_on co => (power_on co c).2
  | .op_power_off co => (power_off co c).2
  | .op_calibrate co => (calibrate co c).2
  | .op_start_emission co params => (start_emission co params c).2
  | .op_stop_emission co => (stop_emission co c).2
  | .op_set_power co power => (set_power co power c).2

/-- Run a sequence of public operations. -/
def run (c : Controller) (ops : List Op) : Controller :=
  ops.foldl apply_op c

/-! ## Helper lemmas -/

@[simp] theorem update_state_config (c : Controller) (s : LightSourceState) :
    (update_state c s).config = c.config := rfl

@[simp] theorem update_state_current_power (c : Controller) (s : LightSourceState) :
    (update_state c s).current_power = c.current_power := rfl

@[simp] theorem update_state_state (c : Controller) (s : LightSourceState) :
    (update_state c s).state = s := rfl

@[simp] theorem update_state_events (c : Controller) (s : LightSourceState) :
    (update_state c s).events = c.events ++ [.state_change c.state s] := rfl

/-- Inversion of the validator: it accepts exactly the parameter vectors the
spec calls valid. -/
theorem validate_some_iff (c : Controller) (params : EmissionParameters) :
    validate_emission_parameters c params = some () ↔
      (0 < params.power ∧ params.power ≤ c.config.max_power ∧
       0 ≤ params.duration ∧ 0 ≤ params.frequency ∧
       0 < params.duty_cycle ∧ params.duty_cycle ≤ 1) := by
  unfold validate_emission_parameters
  constructor
  · intro hv
    split_ifs at hv with h1 h2 h3 h4
    push_neg at h1 h2 h3 h4
    exact ⟨h1.1, h1.2, h2, h3, h4.1, h4.2⟩
  · rintro ⟨hp, hm, hd, hf, hdc1, hdc2⟩
    split_ifs with h1 h2 h3 h4
    · rcases h1 with h | h <;> linarith
    · linarith
    · linarith
    · rcases h4 with h | h <;> linarith
    · rfl

/-! ## The power invariant (C1) -/

/-- The invariant exactly as the spec states it: `current_power` is 0 in
every non-EMITTING state and lies in `(0, max_power]` while EMITTING. -/
def claimed_invariant (c : Controller) : Prop :=
  ((c.state = .off ∨ c.state = .standby ∨ c.state = .calibrating ∨
      c.state = .ready ∨ c.state = .error) → c.current_power = 0) ∧
  (c.state = .emitting → 0 < c.current_power ∧ c.current_power ≤ c.config.max_power)

/-- The invariant the code actually maintains: `current_power` always lies
in `[0, max_power]`, and is 0 in states OFF and STANDBY.  (It can be 0 while
EMITTING via `set_power(0)`, and positive in CALIBRATING / READY / ERROR via
`calibrate()` called during an emission, which never touches
`current_power`.) -/
def power_invariant (c : Controller) : Prop :=
  0 ≤ c.current_power ∧ c.current_power ≤ c.config.max_power ∧
    ((c.state = .off ∨ c.state = .standby) → c.current_power = 0)

theorem power_on_preserves (co : Collaborators) (c : Controller)
    (h : power_invariant c) : power_invariant (power_on co c).2 := by
  obtain ⟨h1, h2, h3⟩ := h
  unfold power_on
  by_cases hoff : c.state = .off
  · have hp0 : c.current_power = 0 := h3 (Or.inl hoff)
    simp only [hoff, ne_eq, not_true_eq_false, if_false, ite_false]
    rcases co.jet_init with _ | _
    · exact ⟨h1, h2, fun _ => hp0⟩
    · rcases co.optimizer_warm_up with _ | _
      · exact ⟨h1, h2, fun _ => hp0⟩
      · rcases execute_warmup_sequence co (update_state c .standby) with _ | _
        · exact ⟨h1, h2, fun _ => hp0⟩
        · exact ⟨h1, h2, by simp [power_invariant]⟩
  · simp only [hoff, ne_eq, not_false_eq_true, if_true]
    exact ⟨h1, h2, h3⟩

theorem stop_emission_preserves (co : Collaborators) (c : Controller)
    (h : power_invariant c) : power_invariant (stop_emission co c).2 := by
  obtain ⟨h1, h2, h3⟩ := h
  unfold stop_emission
  by_cases hem : c.state = .emitting
  · simp only [hem, if_true, ite_true]
    rcases co.optimizer_stop_rt with _ | _
    · exact ⟨h1, h2, h3⟩
    · rcases co.monitor_stop_pm with _ | _
      · exact ⟨h1, h2, h3⟩
      · exact ⟨le_refl 0, le_trans h1 h2, fun _ => rfl⟩
  · simp only [hem, if_false, ite_false]
    exact ⟨h1, h2, h3⟩

theorem power_off_preserves (co : Collaborators) (c : Controller)
    (h : power_invariant c) : power_invariant (power_off co c).2 := by
  have hse := stop_emission_preserves co c h
  obtain ⟨h1, h2, h3⟩ := hse
  unfold power_off
  rcases hs : stop_emission co c with ⟨r, c'⟩
  rw [hs] at h1 h2 h3
  cases r
  · rcases co.optimizer_shutdown with _ | _
    · exact ⟨h1, h2, h3⟩
    · rcases co.jet_shutdown with _ | _
      · exact ⟨h1, h2, h3⟩
      · exact ⟨le_refl 0, le_trans h1 h2, fun _ => rfl⟩
  · exact ⟨h1, h2, h3⟩

theorem calibrate_preserves (co : Collaborators) (c : Controller)
    (h : power_invariant c) : power_invariant (calibrate co c).2 := by
  obtain ⟨h1, h2, h3⟩ := h
  unfold calibrate
  rcases co.jet_calibrate with _ | jet_ok
  · exact ⟨h1, h2, by simp⟩
  · rcases co.optimizer_calibrate with _ | opt_ok
    · exact ⟨h1, h2, by simp⟩
    · rcases co.monitor_calibrate_sensors with _ | sensors_ok
      · exact ⟨h1, h2, by simp⟩
      · by_cases hall : (jet_ok && opt_ok && sensors_ok) = true
        · simp only [hall, if_true, ite_true]
          exact ⟨h1, h2, by simp⟩
        · simp only [hall, if_false, ite_false]
          exact ⟨h1, h2, by simp⟩

theorem start_emission_preserves (co : Collaborators) (params : EmissionParameters)
    (c : Controller) (h : power_invariant c) :
    power_invariant (start_emission co params c).2 := by
  obtain ⟨h1, h2, h3⟩ := h
  unfold start_emission
  by_cases hr : c.state = .ready
  · simp only [hr, ne_eq, not_true_eq_false, if_false, ite_false]
    rcases hv : validate_emission_parameters c params with _ | u
    · exact ⟨h1, h2, h3⟩
    · cases u
      have hval := (validate_some_iff c params).mp hv
      rcases apply_emission_parameters co with _ | _
      · exact ⟨h1, h2, h3⟩
      · rcases co.optimizer_start_rt with _ | _
        · exact ⟨h1, h2, h3⟩
        · rcases co.monitor_start_pm with _ | _
          · exact ⟨le_of_lt hval.1, hval.2.1, by simp⟩
          · exact ⟨le_of_lt hval.1, hval.2.1, by simp⟩
  · simp only [hr, ne_eq, not_false_eq_true, if_true]
    exact ⟨h1, h2, h3⟩

theorem set_power_preserves (co : Collaborators) (p : ℚ) (c : Controller)
    (h : power_invariant c) : power_invariant (set_power co p c).2 := by
  obtain ⟨h1, h2, h3⟩ := h
  unfold set_power
  split_ifs with hrange hstate
  · exact ⟨h1, h2, h3⟩
  · exact ⟨h1, h2, h3⟩
  · push_neg at hrange hstate
    rcases co.optimizer_adjust_power p with _ | b
    · exact ⟨h1, h2, h3⟩
    · cases b
      · exact ⟨h1, h2, h3⟩
      · exact ⟨hrange.1, hrange.2, fun hc => by rw [hstate] at hc; simp at hc⟩

theorem apply_op_preserves (c : Controller) (o : Op) (h : power_invariant c) :
    power_invariant (apply_op c o) := by
  cases o with
  | op_power_on co => exact power_on_preserves co c h
  | op_power_off co => exact power_off_preserves co c h
  | op_calibrate co => exact calibrate_preserves co c h
  | op_start_emission co params => exact start_emission_preserves co params c h
  | op_stop_emission co => exact stop_emission_preserves co c h
  | op_set_power co power => exact set_power_preserves co power c h

theorem run_preserves (ops : List Op) (c : Controller) (h : power_invariant c) :
    power_invariant (run c ops) := by
  induction ops generalizing c with
  | nil => exact h
  | cons o rest ih => exact ih (apply_op c o) (apply_op_preserves c o h)

/-! ## Shared concrete states -/

/-- A READY controller: default config, `power_on` from the stub
subsystems. -/
def readyController : Controller :=
  (power_on stubCollaborators (initController {})).2

/-- An EMITTING controller at power 1e-9 W (within the default
max_power 5e-9): `power_on` then `start_emission`. -/
def emittingController : Controller :=
  (start_emission stubCollaborators { power := mkRat 1 1000000000 } readyController).2

/-! ## C1 -/

/-- C1, counterexample.  The spec's invariant fails on a reachable state:
`power_on`, `start_emission(power = 1e-9)`, then `set_power(0)` — accepted,
because `set_power` only rejects negative powers — leaves the controller
EMITTING with `current_power = 0 ∉ (0, max_power]`. -/
theorem c1_claimed_invariant_fails :
    ¬ claimed_invariant
      (run (initController {})
        [.op_power_on stubCollaborators,
         .op_start_emission stubCollaborators { power := mkRat 1 1000000000 },
         .op_set_power stubCollaborators 0]) := by
  intro h
  have := h.2 (by decide)
  have h0 : (run (initController {})
      [.op_power_on stubCollaborators,
       .op_start_emission stubCollaborators { power := mkRat 1 1000000000 },
       .op_set_power stubCollaborators 0]).current_power = 0 := by decide
  rw [h0] at this
  exact absurd this.1 (by norm_num)

/-- C1, amended.  Every public operation preserves the invariant that
`current_power ∈ [0, max_power]` and that `current_power = 0` in states OFF
and STANDBY; hence it holds in every reachable state of a controller whose
config has `0 ≤ max_power`.  (The spec's stronger invariant fails: EMITTING
with power 0 is reachable via `set_power(0)`, and CALIBRATING / READY /
ERROR with positive power are reachable via `calibrate()` during an
emission.) -/
theorem c1_power_invariant_reachable (cfg : LightSourceConfig) (ops : List Op)
    (hmax : 0 ≤ cfg.max_power) :
    power_invariant (run (initController cfg) ops) :=
  run_preserves ops (initController cfg) ⟨le_refl 0, hmax, fun _ => rfl⟩

/-- C1, witness: the amended invariant at the default config after the
counterexample trace. -/
theorem c1_power_invariant_reachable_witness :
    0 ≤ ({} : LightSourceConfig).max_power ∧
      power_invariant
        (run (initController {})
          [.op_power_on stubCollaborators,
           .op_start_emission stubCollaborators { power := mkRat 1 1000000000 },
           .op_set_power stubCollaborators 0]) :=
  ⟨by decide, c1_power_invariant_reachable {} _ (by decide)⟩

/-! ## C2 -/

/-- C2, counterexample.  `set_power(0)` from EMITTING is accepted — the
source rejects only `power < 0 or power > max_power` — returning `True`,
setting `current_power = 0` and publishing a `power_update` event, where the
claim says any `power ∉ (0, max_power]` is rejected. -/
theorem c2_set_power_zero_accepted :
    (set_power stubCollaborators 0 emittingController).1 = true ∧
    (set_power stubCollaborators 0 emittingController).2.current_power = 0 ∧
    (set_power stubCollaborators 0 emittingController).2.state = .emitting := by
  decide

/-- C2, amended.  `set_power(power)` is rejected (returns `False`, controller
unchanged) whenever `power < 0` or `power > max_power` — so `power = 0` is
accepted, unlike the claim's `(0, max_power]` — and rejected unless the state
is EMITTING.  When accepted and `Optimizer.adjust_power` returns `True`,
`current_power` becomes `power` and a `power_update` event is published; when
`adjust_power` returns `False` or raises, the controller is unchanged. -/
theorem c2_set_power_spec (co : Collaborators) (c : Controller) (p : ℚ) :
    ((p < 0 ∨ p > c.config.max_power) → set_power co p c = (false, c)) ∧
    (c.state ≠ .emitting → set_power co p c = (false, c)) ∧
    (0 ≤ p → p ≤ c.config.max_power → c.state = .emitting →
      co.optimizer_adjust_power p = some true →
      set_power co p c =
        (true,
          { c with
            current_power := p
            events := c.events ++ [.power_update p] })) ∧
    (co.optimizer_adjust_power p ≠ some true → set_power co p c = (false, c)) := by
  refine ⟨?_, ?_, ?_, ?_⟩
  · intro hout
    unfold set_power
    rw [if_pos hout]
  · intro hst
    unfold set_power
    split_ifs with h1
    · rfl
    · rfl
  · intro hp0 hpm hem hadj
    unfold set_power
    rw [if_neg (by push_neg; exact ⟨hp0, hpm⟩), if_neg (by simp [hem]), hadj]
  · intro hadj
    unfold set_power
    split_ifs with h1 h2
    · rfl
    · rfl
    · rcases hA : co.optimizer_adjust_power p with _ | b
      · rfl
      · cases b
        · rfl
        · exact absurd hA hadj

/-- C2, witness: the accepted branch of the amended theorem at a concrete
EMITTING controller and power 1e-9. -/
theorem c2_set_power_spec_witness :
    set_power stubCollaborators (mkRat 1 1000000000) emittingController =
      (true,
        { emittingController with
          current_power := mkRat 1 1000000000
          events := emittingController.events ++
            [.power_update (mkRat 1 1000000000)] }) :=
  (c2_set_power_spec stubCollaborators emittingController
      (mkRat 1 1000000000)).2.2.1
    (by decide) (by decide) (by decide) rfl

/-! ## C3 and C4 -/

/-- Recognizer for `power_update` events in the publication log. -/
def is_power_update : ControllerEvent → Bool
  | .power_update _ => true
  | .state_change _ _ => false

/-- The success path of `start_emission`: from READY with valid parameters
and every collaborator call succeeding, the result is `True` and the
controller is EMITTING at `params.power`, with exactly one new event
published — a `state_change` READY → EMITTING. -/
theorem start_emission_success_eq (co : Collaborators) (c : Controller)
    (params : EmissionParameters)
    (hready : c.state = .ready)
    (hpow : 0 < params.power) (hmax : params.power ≤ c.config.max_power)
    (hdur : 0 ≤ params.duration) (hfreq : 0 ≤ params.frequency)
    (hdc1 : 0 < params.duty_cycle) (hdc2 : params.duty_cycle ≤ 1)
    (hje : co.jet_configure_emission = some ())
    (hoc : co.optimizer_configure_optimization = some ())
    (hmc : co.monitor_configure_monitoring = some ())
    (hrt : co.optimizer_start_rt = some ())
    (hpm : co.monitor_start_pm = some ()) :
    start_emission co params c =
      (true,
        { c with
          state := .emitting
          current_power := params.power
          events := c.events ++ [.state_change .ready .emitting] }) := by
  have hv : validate_emission_parameters c params = some () :=
    (validate_some_iff c params).mpr ⟨hpow, hmax, hdur, hfreq, hdc1, hdc2⟩
  have ha : apply_emission_parameters co = some () := by
    unfold apply_emission_parameters
    rw [hje, hoc, hmc]
    rfl
  unfold start_emission
  rw [if_neg (by simp [hready]), hv, ha, hrt, hpm]
  simp [update_state, hready]

/-- C3, counterexample.  A fully successful `start_emission` publishes no
`power_update` event — the source's `start_emission` assigns
`current_power` directly and only `_update_state` publishes (a
`state_change`); the claim's "power_update is published" is false.  The
filter over the whole publication log since construction is empty. -/
theorem c3_no_power_update_published :
    (start_emission stubCollaborators { power := mkRat 1 1000000000 }
        readyController).1 = true ∧
    (start_emission stubCollaborators { power := mkRat 1 1000000000 }
        readyController).2.state = .emitting ∧
    ((start_emission stubCollaborators { power := mkRat 1 1000000000 }
        readyController).2.events.filter is_power_update) = [] := by
  decide

/-- C3, amended.  For every `start_emission(params)` from READY with valid
params where all collaborator calls succeed: it returns `True`, the final
state is EMITTING, `current_power = params.power`, and the single event
published is a `state_change` READY → EMITTING — no `power_update` event is
published (the `power_update` entries of the log are unchanged). -/
theorem c3_start_emission_success (co : Collaborators) (c : Controller)
    (params : EmissionParameters)
    (hready : c.state = .ready)
    (hpow : 0 < params.power) (hmax : params.power ≤ c.config.max_power)
    (hdur : 0 ≤ params.duration) (hfreq : 0 ≤ params.frequency)
    (hdc1 : 0 < params.duty_cycle) (hdc2 : params.duty_cycle ≤ 1)
    (hje : co.jet_configure_emission = some ())
    (hoc : co.optimizer_configure_optimization = some ())
    (hmc : co.monitor_configure_monitoring = some ())
    (hrt : co.optimizer_start_rt = some ())
    (hpm : co.monitor_start_pm = some ()) :
    start_emission co params c =
      (true,
        { c with
          state := .emitting
          current_power := params.power
          events := c.events ++ [.state_change .ready .emitting] }) ∧
    (start_emission co params c).2.events.filter is_power_update =
      c.events.filter is_power_update := by
  have he := start_emission_success_eq co c params hready hpow hmax hdur hfreq
    hdc1 hdc2 hje hoc hmc hrt hpm
  refine ⟨he, ?_⟩
  rw [he]
  simp [is_power_update]

/-- C3, witness: the amended theorem at the stub collaborators, the concrete
READY controller and power 1e-9. -/
theorem c3_start_emission_success_witness :
    start_emission stubCollaborators { power := mkRat 1 1000000000 }
        readyController =
      (true,
        { readyController with
          state := .emitting
          current_power := mkRat 1 1000000000
          events := readyController.events ++
            [.state_change .ready .emitting] }) :=
  (c3_start_emission_success stubCollaborators readyController
      { power := mkRat 1 1000000000 }
      (by decide) (by decide) (by decide) (by decide) (by decide) (by decide)
      (by decide) rfl rfl rfl rfl rfl).1

/-- C4, counterexample.  The spec's own scenario (`max_power = 5e-9`,
`start_emission(power = 2.5e-9, duration = 3.0)` from READY): the call
succeeds and the controller is EMITTING at 2.5e-9, but the source schedules
no task of any kind — with no further public operation the controller is
untouched (`run · [] = ·`), so it never auto-transitions to READY and
`current_power` never returns to 0. -/
theorem c4_no_auto_stop_scenario :
    (start_emission stubCollaborators
        { power := mkRat 1 400000000, duration := 3 }
        (power_on stubCollaborators
          (initController { max_power := mkRat 1 200000000 })).2).1 = true ∧
    (start_emission stubCollaborators
        { power := mkRat 1 400000000, duration := 3 }
        (power_on stubCollaborators
          (initController { max_power := mkRat 1 200000000 })).2).2.state =
      .emitting ∧
    (start_emission stubCollaborators
        { power := mkRat 1 400000000, duration := 3 }
        (power_on stubCollaborators
          (initController { max_power := mkRat 1 200000000 })).2).2.current_power =
      mkRat 1 400000000 ∧
    run (start_emission stubCollaborators
        { power := mkRat 1 400000000, duration := 3 }
        (power_on stubCollaborators
          (initController { max_power := mkRat 1 200000000 })).2).2 [] =
      (start_emission stubCollaborators
        { power := mkRat 1 400000000, duration := 3 }
        (power_on stubCollaborators
          (initController { max_power := mkRat 1 200000000 })).2).2 := by
  decide

/-- C4, amended.  After a successful `start_emission` with
`params.duration > 0` the controller owns no scheduled task: with no further
public operation the state remains EMITTING and `current_power` remains
`params.power` indefinitely; emission ends only through an explicit
`stop_emission` or `power_off` issued by the caller (in this repository, the
demo scripts). -/
theorem c4_no_auto_stop (co : Collaborators) (c : Controller)
    (params : EmissionParameters)
    (hready : c.state = .ready) (hdurpos : 0 < params.duration)
    (hpow : 0 < params.power) (hmax : params.power ≤ c.config.max_power)
    (hfreq : 0 ≤ params.frequency)
    (hdc1 : 0 < params.duty_cycle) (hdc2 : params.duty_cycle ≤ 1)
    (hje : co.jet_configure_emission = some ())
    (hoc : co.optimizer_configure_optimization = some ())
    (hmc : co.monitor_configure_monitoring = some ())
    (hrt : co.optimizer_start_rt = some ())
    (hpm : co.monitor_start_pm = some ()) :
    (start_emission co params c).1 = true ∧
    (start_emission co params c).2.state = .emitting ∧
    (start_emission co params c).2.current_power = params.power ∧
    run (start_emission co params c).2 [] = (start_emission co params c).2 := by
  have he := start_emission_success_eq co c params hready hpow hmax
    (le_of_lt hdurpos) hfreq hdc1 hdc2 hje hoc hmc hrt hpm
  rw [he]
  exact ⟨rfl, rfl, rfl, rfl⟩

/-- C4, witness: the amended theorem at the spec's scenario inputs
(max_power 5e-9, power 2.5e-9, duration 3.0). -/
theorem c4_no_auto_stop_witness :
    (start_emission stubCollaborators
        { power := mkRat 1 400000000, duration := 3 }
        (power_on stubCollaborators
          (initController { max_power := mkRat 1 200000000 })).2).2.state =
      .emitting :=
  (c4_no_auto_stop stubCollaborators
      (power_on stubCollaborators
        (initController { max_power := mkRat 1 200000000 })).2
      { power := mkRat 1 400000000, duration := 3 }
      (by decide) (by decide) (by decide) (by decide) (by decide) (by decide)
      (by decide) rfl rfl rfl rfl rfl).2.1

/-! ## C5 -/

/-- C5, confirmed.  From READY, parameters failing any of the validator's
checks make `start_emission` return `False` with the controller completely
unchanged — same state, same `current_power`, same publication log (so no
`power_update` event) — and this holds for every collaborator behaviour
`co`, i.e. no collaborator call can influence the outcome: validation runs
before any subsystem is touched. -/
theorem c5_start_emission_invalid_rejected (co : Collaborators) (c : Controller)
    (params : EmissionParameters)
    (hready : c.state = .ready)
    (hbad : params.power ≤ 0 ∨ params.power > c.config.max_power ∨
      params.duration < 0 ∨ params.frequency < 0 ∨
      params.duty_cycle ≤ 0 ∨ params.duty_cycle > 1) :
    start_emission co params c = (false, c) := by
  have hv : validate_emission_parameters c params = none := by
    rcases hve : validate_emission_parameters c params with _ | u
    · rfl
    · cases u
      have hval := (validate_some_iff c params).mp hve
      rcases hbad with h | h | h | h | h | h <;>
        [linarith [hval.1]; linarith [hval.2.1]; linarith [hval.2.2.1];
         linarith [hval.2.2.2.1]; linarith [hval.2.2.2.2.1];
         linarith [hval.2.2.2.2.2]]
  unfold start_emission
  rw [if_neg (by simp [hready]), hv]

/-- C5, witness: `start_emission(power = 0)` — invalid since `0 < power` is
required — from the concrete READY controller, with the stub
collaborators. -/
theorem c5_start_emission_invalid_rejected_witness :
    start_emission stubCollaborators { power := 0 } readyController =
      (false, readyController) :=
  c5_start_emission_invalid_rejected stubCollaborators readyController
    { power := 0 } (by decide) (Or.inl (by decide))

/-! ## C6 -/

/-- `power_off` when none of the shutdown-path collaborator calls raises:
returns normally, state OFF, `current_power` 0 (shared helper). -/
theorem power_off_ok (co : Collaborators) (c : Controller)
    (hrt : co.optimizer_stop_rt = some ()) (hpm : co.monitor_stop_pm = some ())
    (hos : co.optimizer_shutdown = some ()) (hjs : co.jet_shutdown = some ()) :
    (power_off co c).1 = .ok () ∧ (power_off co c).2.state = .off ∧
      (power_off co c).2.current_power = 0 := by
  have hse : ∃ c', stop_emission co c = (.ok (), c') := by
    unfold stop_emission
    by_cases hem : c.state = .emitting
    · rw [if_pos hem, hrt, hpm]
      exact ⟨_, rfl⟩
    · rw [if_neg hem]
      exact ⟨_, rfl⟩
  obtain ⟨c', hc'⟩ := hse
  unfold power_off
  rw [hc', hos, hjs]
  exact ⟨rfl, rfl, rfl⟩

/-- C6, counterexample.  `power_off` is not exception-safe: there is no
`try`/`except` in the source, so a collaborator exception during shutdown
(here: `optimizer.shutdown` raising on a READY controller) propagates to the
caller, and the controller is left neither OFF nor at zero... it is simply
abandoned mid-sequence (state still READY).  This refutes "always succeeds
and never raises past the controller boundary". -/
theorem c6_power_off_raises :
    (power_off { optimizer_shutdown := none } readyController).1 =
      PyResult.raised ∧
    (power_off { optimizer_shutdown := none } readyController).2.state =
      .ready := by
  decide

/-- C6, amended.  `power_off()` from any state stops emission if active,
shuts down the Optimizer then the Jet, transitions to OFF and zeroes
`current_power` — provided no collaborator call raises during the shutdown
sequence.  A collaborator exception is NOT caught: it propagates to the
caller (the source has no `try` in `power_off` or `stop_emission`). -/
theorem c6_power_off_success (co : Collaborators) (c : Controller)
    (hrt : co.optimizer_stop_rt = some ()) (hpm : co.monitor_stop_pm = some ())
    (hos : co.optimizer_shutdown = some ()) (hjs : co.jet_shutdown = some ()) :
    (power_off co c).1 = .ok () ∧ (power_off co c).2.state = .off ∧
      (power_off co c).2.current_power = 0 :=
  power_off_ok co c hrt hpm hos hjs

/-- C6, witness: the amended theorem at the stub collaborators and the
concrete EMITTING controller. -/
theorem c6_power_off_success_witness :
    (power_off stubCollaborators emittingController).1 = PyResult.ok () ∧
    (power_off stubCollaborators emittingController).2.state = .off ∧
    (power_off stubCollaborators emittingController).2.current_power = 0 :=
  c6_power_off_success stubCollaborators emittingController rfl rfl rfl rfl

/-! ## C7 -/

/-- All three collaborator calibrations return `True` (a raise, `none`,
counts as failure). -/
def all_calibrations_ok (co : Collaborators) : Bool :=
  co.jet_calibrate.getD false && co.optimizer_calibrate.getD false &&
    co.monitor_calibrate_sensors.getD false

/-- C7, confirmed.  `calibrate()` returns `True` exactly when all three
collaborator calibrations report success, and the final state is READY in
that case and ERROR in every other (any `False` return or any raise) — never
READY on failure. -/
theorem c7_calibrate_ready_iff (co : Collaborators) (c : Controller) :
    (calibrate co c).1 = all_calibrations_ok co ∧
    (calibrate co c).2.state =
      (if all_calibrations_ok co then .ready else .error) := by
  unfold calibrate all_calibrations_ok
  rcases co.jet_calibrate with _ | jet_ok
  · simp
  · rcases co.optimizer_calibrate with _ | opt_ok
    · simp
    · rcases co.monitor_calibrate_sensors with _ | sensors_ok
      · simp
      · cases jet_ok <;> cases opt_ok <;> cases sensors_ok <;> simp

/-! ## C8 -/

/-- Every collaborator call succeeds and every `calibrate`-style call
reports success (the behaviour the stub subsystems implement). -/
def all_succeed (co : Collaborators) : Prop :=
  co.jet_init = some () ∧ co.optimizer_warm_up = some () ∧
  (∀ p, co.optimizer_prepare_for_power p = some ()) ∧
  co.jet_calibrate = some true ∧ co.optimizer_calibrate = some true ∧
  co.monitor_calibrate_sensors = some true ∧
  co.jet_configure_emission = some () ∧
  co.optimizer_configure_optimization = some () ∧
  co.monitor_configure_monitoring = some () ∧
  co.optimizer_start_rt = some () ∧ co.monitor_start_pm = some () ∧
  co.optimizer_stop_rt = some () ∧ co.monitor_stop_pm = some () ∧
  co.optimizer_shutdown = some () ∧ co.jet_shutdown = some () ∧
  (∀ p, co.optimizer_adjust_power p = some true)

/-- C8, confirmed.  Starting OFF, with every collaborator call succeeding
and valid emission parameters, the sequence `power_on`; `calibrate`;
`start_emission(params)`; `stop_emission`; `power_off` ends with state OFF
and `current_power = 0`. -/
theorem c8_round_trip (cfg : LightSourceConfig) (params : EmissionParameters)
    (co : Collaborators) (hco : all_succeed co)
    (hpow : 0 < params.power) (hmax : params.power ≤ cfg.max_power)
    (hdur : 0 ≤ params.duration) (hfreq : 0 ≤ params.frequency)
    (hdc1 : 0 < params.duty_cycle) (hdc2 : params.duty_cycle ≤ 1) :
    (run (initController cfg)
      [.op_power_on co, .op_calibrate co, .op_start_emission co params,
       .op_stop_emission co, .op_power_off co]).state = .off ∧
    (run (initController cfg)
      [.op_power_on co, .op_calibrate co, .op_start_emission co params,
       .op_stop_emission co, .op_power_off co]).current_power = 0 := by
  obtain ⟨h1, h2, h3, h4, h5, h6, h7, h8, h9, h10, h11, h12, h13, h14, h15, h16⟩ := hco
  have h := power_off_ok co
    (run (initController cfg)
      [.op_power_on co, .op_calibrate co, .op_start_emission co params,
       .op_stop_emission co])
    h12 h13 h14 h15
  exact ⟨h.2.1, h.2.2⟩

/-- C8, witness: the round trip at the default config, stub collaborators
and power 1e-9. -/
theorem c8_round_trip_witness :
    all_succeed stubCollaborators ∧
    (run (initController {})
      [.op_power_on stubCollaborators, .op_calibrate stubCollaborators,
       .op_start_emission stubCollaborators { power := mkRat 1 1000000000 },
       .op_stop_emission stubCollaborators,
       .op_power_off stubCollaborators]).state = .off ∧
    (run (initController {})
      [.op_power_on stubCollaborators, .op_calibrate stubCollaborators,
       .op_start_emission stubCollaborators { power := mkRat 1 1000000000 },
       .op_stop_emission stubCollaborators,
       .op_power_off stubCollaborators]).current_power = 0 := by
  have hs : all_succeed stubCollaborators :=
    ⟨rfl, rfl, fun _ => rfl, rfl, rfl, rfl, rfl, rfl, rfl, rfl, rfl, rfl, rfl,
     rfl, rfl, fun _ => rfl⟩
  have h := c8_round_trip {} { power := mkRat 1 1000000000 } stubCollaborators
    hs (by decide) (by decide) (by decide) (by decide) (by decide) (by decide)
  exact ⟨hs, h.1, h.2⟩

/-! ## C9: the callback bus -/

/-- A registered listener: an identifier (so invocation order is
observable) and whether its body raises when invoked. -/
structure RegisteredCallback where
  id : Nat
  raises : Bool
deriving DecidableEq, Repr

/-- The `self._callbacks` dict of the source: one ordered list per known
event name. -/
structure CallbackTable where
  state_change : List RegisteredCallback := []
  power_update : List RegisteredCallback := []
  error : List RegisteredCallback := []
deriving DecidableEq, Repr

/-- `register_callback`: append to the list of a known event name, silently
ignore an unknown one. -/
def register_callback (table : CallbackTable) (event : String)
    (cb : RegisteredCallback) : CallbackTable :=
  if event = "state_change" then
    { table with state_change := table.state_change ++ [cb] }
  else if event = "power_update" then
    { table with power_update := table.power_update ++ [cb] }
  else if event = "error" then
    { table with error := table.error ++ [cb] }
  else table

/-- Invoking `callback(data)`: the observable effect is the invocation
itself (the id), and the callback may raise (second component). -/
def invoke_callback (cb : RegisteredCallback) : Nat × Bool :=
  (cb.id, cb.raises)

/-- `_trigger_callbacks` over one event's listener list: `for callback in
...: try: callback(data) except Exception: logging.error(...)`.  Returns the
invocations in order and whether an exception escaped the loop: the
`except` swallows whatever `invoke_callback` reports, so iteration always
continues and nothing ever escapes. -/
def trigger_callbacks_list : List RegisteredCallback → List Nat × Bool
  | [] => ([], false)
  | cb :: rest =>
    let call := invoke_callback cb
    let next := trigger_callbacks_list rest
    (call.1 :: next.1, next.2)

/-- C9, confirmed.  Publishing an event invokes every registered listener of
that event, in registration order (registration appends, dispatch follows
the list), and no listener exception stops the remaining listeners or
escapes to the publisher. -/
theorem c9_callbacks_in_order_contained (cbs : List RegisteredCallback)
    (table : CallbackTable) (cb : RegisteredCallback) :
    trigger_callbacks_list cbs = (cbs.map RegisteredCallback.id, false) ∧
    (register_callback table "state_change" cb).state_change =
      table.state_change ++ [cb] ∧
    (register_callback table "power_update" cb).power_update =
      table.power_update ++ [cb] ∧
    (register_callback table "error" cb).error = table.error ++ [cb] := by
  refine ⟨?_, ?_, ?_, ?_⟩
  · induction cbs with
    | nil => rfl
    | cons c rest ih => simp [trigger_callbacks_list, invoke_callback, ih]
  · simp [register_callback]
  · simp [register_callback]
  · simp [register_callback]

/-! ## C10 -/

/-- C10, confirmed.  `start_emission` is not atomic on failure past the
commit point: if `monitor.start_power_monitoring` raises — it is called
after the transition to EMITTING and the assignment of `current_power` —
the call returns `False` while the controller stays EMITTING at
`params.power`. -/
theorem c10_start_emission_partial_commit (co : Collaborators) (c : Controller)
    (params : EmissionParameters)
    (hready : c.state = .ready)
    (hpow : 0 < params.power) (hmax : params.power ≤ c.config.max_power)
    (hdur : 0 ≤ params.duration) (hfreq : 0 ≤ params.frequency)
    (hdc1 : 0 < params.duty_cycle) (hdc2 : params.duty_cycle ≤ 1)
    (hje : co.jet_configure_emission = some ())
    (hoc : co.optimizer_configure_optimization = some ())
    (hmc : co.monitor_configure_monitoring = some ())
    (hrt : co.optimizer_start_rt = some ())
    (hpm : co.monitor_start_pm = none) :
    (start_emission co params c).1 = false ∧
    (start_emission co params c).2.state = .emitting ∧
    (start_emission co params c).2.current_power = params.power := by
  have hv : validate_emission_parameters c params = some () :=
    (validate_some_iff c params).mpr ⟨hpow, hmax, hdur, hfreq, hdc1, hdc2⟩
  have ha : apply_emission_parameters co = some () := by
    unfold apply_emission_parameters
    rw [hje, hoc, hmc]
    rfl
  unfold start_emission
  rw [if_neg (by simp [hready]), hv, ha, hrt, hpm]
  exact ⟨rfl, rfl, rfl⟩

/-- C10, witness: stub collaborators except that
`monitor.start_power_monitoring` raises, applied to the concrete READY
controller at power 1e-9. -/
theorem c10_start_emission_partial_commit_witness :
    (start_emission { monitor_start_pm := none }
        { power := mkRat 1 1000000000 } readyController).1 = false ∧
    (start_emission { monitor_start_pm := none }
        { power := mkRat 1 1000000000 } readyController).2.state = .emitting ∧
    (start_emission { monitor_start_pm := none }
        { power := mkRat 1 1000000000 } readyController).2.current_power =
      mkRat 1 1000000000 :=
  c10_start_emission_partial_commit { monitor_start_pm := none }
    readyController { power := mkRat 1 1000000000 }
    (by decide) (by decide) (by decide) (by decide) (by decide) (by decide)
    (by decide) rfl rfl rfl rfl rfl
